import Mathlib

/-!
Shallow embedding of the BoomBank payment/reconciliation core:
the Transaction (Ledger Entry) model (src/server/models/Transaction.js),
the User balance (src/unnamed/part_002, user schema), the M-Pesa service
callback / sweep logic (src/unnamed/part_003, MpesaService), the payment
routes (src/server/routes/payment.js) and the cron reconciliation service
(src/unnamed/part_002, CronService).

Databases are modelled as lists of user and transaction documents; each
route handler or service method becomes a pure function from the database
(plus the external gateway's behaviour, passed as a parameter) to the
updated database. Timestamps are integers (JS epoch milliseconds); money
amounts are integers.
-/

namespace BoomBank

/-- Transaction `type` field: enum of deposit and withdrawal
(Transaction.js, transactionSchema.type). -/
inductive TxType
  | deposit
  | withdrawal
deriving DecidableEq

/-- Transaction `status` field: enum of pending, processing, completed,
failed, cancelled (Transaction.js, transactionSchema.status). -/
inductive TxStatus
  | pending
  | processing
  | completed
  | failed
  | cancelled
deriving DecidableEq

/-- Embedded `mpesaDetails` subdocument of a transaction
(Transaction.js, transactionSchema.mpesaDetails). -/
structure MpesaDetails where
  phoneNumber : Option String
  merchantRequestId : Option String
  checkoutRequestId : Option String
  resultCode : Option String
  resultDesc : Option String
  amount : Option Int
  mpesaReceiptNumber : Option String
  transactionDate : Option Int
deriving DecidableEq

/-- A Transaction document (Ledger Entry), following transactionSchema in
src/server/models/Transaction.js. `id` stands for Mongo's `_id`, `user`
for the owner's id. -/
structure Transaction where
  id : Nat
  user : Nat
  type : TxType
  amount : Int
  status : TxStatus
  mpesaDetails : MpesaDetails
  failureReason : Option String
  retryCount : Nat
  maxRetries : Nat
  createdAt : Int
  processedAt : Option Int
  failedAt : Option Int
deriving DecidableEq

/-- The slice of the User document this core reads and writes
(src/unnamed/part_002 user schema): balance, registered phone number and
the per-user withdrawal limit from paymentSettings. -/
structure User where
  id : Nat
  phoneNumber : Option String
  balance : Int
  withdrawalLimit : Int
deriving DecidableEq

/-- The persisted state: the users and transactions collections. -/
structure DB where
  users : List User
  transactions : List Transaction
deriving DecidableEq

/-- User.findById. -/
def findUser (db : DB) (uid : Nat) : Option User :=
  db.users.find? (fun u => u.id = uid)

/-- user.save(): write the (modified) user document back, matching on id. -/
def saveUser (db : DB) (u : User) : DB :=
  { db with users := db.users.map (fun v => if v.id = u.id then u else v) }

/-- transaction.save(): write the (modified) transaction document back,
matching on id. -/
def saveTx (db : DB) (t : Transaction) : DB :=
  { db with
    transactions := db.transactions.map (fun s => if s.id = t.id then t else s) }

/-- Transaction.findByCheckoutId: findOne on
mpesaDetails.checkoutRequestId (Transaction.js static). Finds the first
match regardless of the transaction's status. -/
def findByCheckoutId (db : DB) (cid : String) : Option Transaction :=
  db.transactions.find? (fun t => t.mpesaDetails.checkoutRequestId = some cid)

/-- The stkCallback payload fields the service destructures
(part_003, handleSTKPushCallback). -/
structure StkCallback where
  checkoutRequestID : String
  resultCode : String
  resultDesc : String
  amount : Option Int
  mpesaReceiptNumber : Option String
  transactionDate : Option Int
deriving DecidableEq

/-- transaction.markAsCompleted(mpesaData): sets status to completed,
merges the callback fields into mpesaDetails and stamps processedAt
(Transaction.js methods.markAsCompleted; the pre-save hook would also set
processedAt). -/
def markAsCompleted (t : Transaction) (cb : StkCallback) (now : Int) : Transaction :=
  { t with
    status := TxStatus.completed
    mpesaDetails :=
      { t.mpesaDetails with
        resultCode := some cb.resultCode
        resultDesc := some cb.resultDesc
        amount := cb.amount
        mpesaReceiptNumber := cb.mpesaReceiptNumber
        transactionDate := cb.transactionDate }
    processedAt := some now }

/-- transaction.markAsFailed(reason): sets status to failed, records the
reason and stamps failedAt (Transaction.js methods.markAsFailed). -/
def markAsFailed (t : Transaction) (reason : String) (now : Int) : Transaction :=
  { t with
    status := TxStatus.failed
    failureReason := some reason
    failedAt := some now }

/-- transaction.incrementRetryCount(): adds one to retryCount and, when it
reaches maxRetries, sets status to cancelled
(Transaction.js methods.incrementRetryCount). -/
def incrementRetryCount (t : Transaction) : Transaction :=
  let rc := t.retryCount + 1
  { t with
    retryCount := rc
    status := if t.maxRetries ≤ rc then TxStatus.cancelled else t.status }

/-- Balance delta applied by a success confirmation: plus the amount for a
deposit, minus the amount for a withdrawal (part_003,
handleSTKPushCallback success branch). -/
def balanceDelta (k : TxType) (amt : Int) : Int :=
  match k with
  | TxType.deposit => amt
  | TxType.withdrawal => -amt

/-- Outcome of handleSTKPushCallback as seen by its callers: the success
branch returns success true, the failure branch and the missing-entry
branch return success false, and a user.save() validation failure
(balance below its schema minimum of 0) throws. -/
inductive CbOutcome
  | completedOk
  | txFailed
  | notFound
  | threw
deriving DecidableEq

/-- MpesaService.handleSTKPushCallback (part_003 lines 220-285): look the
transaction up by checkoutRequestId; on ResultCode `0` unconditionally
markAsCompleted, save, and apply the balance delta to the owner (if the
owner exists); otherwise markAsFailed and save. There is no check of the
transaction's current status before either branch. The user schema
declares balance with min 0, so a save that would make it negative
throws instead of writing. -/
def handleSTKPushCallback (db : DB) (cb : StkCallback) (now : Int) :
    DB × CbOutcome :=
  match findByCheckoutId db cb.checkoutRequestID with
  | none => (db, CbOutcome.notFound)
  | some tx =>
    if cb.resultCode = "0" then
      let db1 := saveTx db (markAsCompleted tx cb now)
      match findUser db1 tx.user with
      | none => (db1, CbOutcome.completedOk)
      | some u =>
        let nb := u.balance + balanceDelta tx.type tx.amount
        if nb < 0 then (db1, CbOutcome.threw)
        else (saveUser db1 { u with balance := nb }, CbOutcome.completedOk)
    else
      (saveTx db (markAsFailed tx cb.resultDesc now), CbOutcome.txFailed)

/-- POST /mpesa/callback (payment.js lines 421-447): delegates to
handleSTKPushCallback and acknowledges ResultCode `0` exactly when the
handler reported success. -/
def mpesaCallbackRoute (db : DB) (cb : StkCallback) (now : Int) : DB × Bool :=
  let r := handleSTKPushCallback db cb now
  (r.1, r.2 = CbOutcome.completedOk)

/-- POST /mpesa/timeout (payment.js lines 450-470): look the transaction
up by CheckoutRequestID (any status), markAsFailed it, and credit the
amount back to the owner when it is a withdrawal. -/
def mpesaTimeoutRoute (db : DB) (cid : String) (now : Int) : DB :=
  match findByCheckoutId db cid with
  | none => db
  | some tx =>
    let db1 := saveTx db (markAsFailed tx ("Transaction timed out") now)
    if tx.type = TxType.withdrawal then
      match findUser db1 tx.user with
      | none => db1
      | some u => saveUser db1 { u with balance := u.balance + tx.amount }
    else db1

/-- POST /transactions/:id/cancel (payment.js lines 370-418): findOne on
id, owner and status in {pending, processing}; when found, set status to
cancelled, save, and credit the amount back when it is a withdrawal.
Returns the updated database and whether a transaction was cancelled. -/
def cancelRoute (db : DB) (uid : Nat) (txid : Nat) : DB × Bool :=
  match db.transactions.find?
      (fun t => t.id = txid ∧ t.user = uid ∧
        (t.status = TxStatus.pending ∨ t.status = TxStatus.processing)) with
  | none => (db, false)
  | some tx =>
    let db1 := saveTx db { tx with status := TxStatus.cancelled }
    if tx.type = TxType.withdrawal then
      match findUser db1 uid with
      | none => (db1, true)
      | some u => (saveUser db1 { u with balance := u.balance + tx.amount }, true)
    else (db1, true)

/-- Outcome of the external gateway call made by initiateSTKPush /
initiateWithdrawal (part_003): either the provider accepts the request
(ResponseCode `0`, returning the correlation ids) or the call fails
(non-zero ResponseCode, or a network error — both surface as a thrown
error to the route). -/
inductive GatewayResult
  | accepted (checkoutRequestId merchantRequestId : String)
  | failed
deriving DecidableEq

/-- Count of the user's transactions in status pending or processing
(the `pendingTransactions` query of the deposit and withdraw routes). -/
def countPending (db : DB) (uid : Nat) : Nat :=
  (db.transactions.filter
    (fun t => t.user = uid ∧
      (t.status = TxStatus.pending ∨ t.status = TxStatus.processing))).length

/-- The transaction document created by initiateSTKPush on gateway
acceptance (part_003 lines 111-127): a pending deposit with the returned
correlation ids. -/
def newDepositTx (txid uid : Nat) (amount : Int) (phone cid mid : String)
    (now : Int) : Transaction :=
  { id := txid, user := uid, type := TxType.deposit, amount := amount
    status := TxStatus.pending
    mpesaDetails :=
      { phoneNumber := some phone, merchantRequestId := some mid
        checkoutRequestId := some cid, resultCode := none, resultDesc := none
        amount := none, mpesaReceiptNumber := none, transactionDate := none }
    failureReason := none, retryCount := 0, maxRetries := 3
    createdAt := now, processedAt := none, failedAt := none }

/-- The transaction document created by initiateWithdrawal on gateway
acceptance (part_003 lines 185-201): a pending withdrawal with the
returned correlation ids. -/
def newWithdrawalTx (txid uid : Nat) (amount : Int) (phone cid mid : String)
    (now : Int) : Transaction :=
  { newDepositTx txid uid amount phone cid mid now with type := TxType.withdrawal }

/-- What a deposit/withdraw route invocation produced: the database
afterwards, whether the JSON response had success true, and whether the
gateway initiate call was reached. -/
structure RouteOutcome where
  db : DB
  success : Bool
  gatewayCalled : Bool
deriving DecidableEq

/-- express-validator bounds on a deposit amount: isFloat min 10 max
100000 (payment.js validateDeposit). -/
def validDepositAmount (amount : Int) : Prop :=
  10 ≤ amount ∧ amount ≤ 100000

instance (amount : Int) : Decidable (validDepositAmount amount) :=
  inferInstanceAs (Decidable (10 ≤ amount ∧ amount ≤ 100000))

/-- express-validator bounds on a withdrawal amount: isFloat min 100 max
200000 (payment.js validateWithdrawal). -/
def validWithdrawalAmount (amount : Int) : Prop :=
  100 ≤ amount ∧ amount ≤ 200000

instance (amount : Int) : Decidable (validWithdrawalAmount amount) :=
  inferInstanceAs (Decidable (100 ≤ amount ∧ amount ≤ 200000))

/-- A rejection answered before the gateway initiate call: the database
is unchanged and no transaction was created. -/
def rejected (db : DB) : RouteOutcome := ⟨db, false, false⟩

/-- The checks of POST /deposit performed after validation, user lookup
and phone check (payment.js lines 66-97): the pending-transactions cap
of 3, then initiateSTKPush, which creates the pending transaction when
the gateway accepts; a gateway failure throws and the route answers 500
with no document created. -/
def depositChecks (db : DB) (uid : Nat) (_u : User) (phone : String)
    (amount : Int) (gw : GatewayResult) (txid : Nat) (now : Int) : RouteOutcome :=
  if 3 ≤ countPending db uid then rejected db
  else
    match gw with
    | GatewayResult.accepted cid mid =>
      ⟨{ db with transactions :=
          db.transactions ++ [newDepositTx txid uid amount phone cid mid now] },
        true, true⟩
    | GatewayResult.failed => ⟨db, false, true⟩

/-- POST /deposit (payment.js lines 35-106): express-validator bounds,
user lookup and registered-phone check, then depositChecks. -/
def depositRoute (db : DB) (uid : Nat) (amount : Int) (gw : GatewayResult)
    (txid : Nat) (now : Int) : RouteOutcome :=
  if validDepositAmount amount then
    match findUser db uid with
    | none => rejected db
    | some u =>
      match u.phoneNumber with
      | none => rejected db
      | some phone => depositChecks db uid u phone amount gw txid now
  else rejected db

/-- The checks of POST /withdraw performed after validation, user lookup
and phone check (payment.js lines 140-207): balance check,
pending-transactions cap of 2, minimum and maximum re-checks, per-user
withdrawal limit, then initiateWithdrawal (creating the pending
transaction) followed by the immediate deduction `user.balance -=
amount`. -/
def withdrawChecks (db : DB) (uid : Nat) (u : User) (phone : String)
    (amount : Int) (gw : GatewayResult) (txid : Nat) (now : Int) : RouteOutcome :=
  if u.balance < amount then rejected db
  else if 2 ≤ countPending db uid then rejected db
  else if amount < 100 then rejected db
  else if 200000 < amount then rejected db
  else if u.withdrawalLimit < amount then rejected db
  else
    match gw with
    | GatewayResult.accepted cid mid =>
      let db1 :=
        { db with transactions :=
            db.transactions ++ [newWithdrawalTx txid uid amount phone cid mid now] }
      ⟨saveUser db1 { u with balance := u.balance - amount }, true, true⟩
    | GatewayResult.failed => ⟨db, false, true⟩

/-- POST /withdraw (payment.js lines 109-216): express-validator bounds,
user lookup and registered-phone check, then withdrawChecks. -/
def withdrawRoute (db : DB) (uid : Nat) (amount : Int) (gw : GatewayResult)
    (txid : Nat) (now : Int) : RouteOutcome :=
  if validWithdrawalAmount amount then
    match findUser db uid with
    | none => rejected db
    | some u =>
      match u.phoneNumber with
      | none => rejected db
      | some phone => withdrawChecks db uid u phone amount gw txid now
  else rejected db

/-- Result of MpesaService.queryTransactionStatus as the sweepers see it:
the provider's status fields, or a thrown error (network failure or a
missing/invalid checkoutRequestId). -/
inductive QueryOutcome
  | ok (resultCode resultDesc : String) (amount : Option Int)
      (receipt : Option String) (txDate : Option Int)
  | netError
deriving DecidableEq

/-- The provider's behaviour during a sweep, as a function from
checkoutRequestId to the poll outcome. -/
def Provider := String → QueryOutcome

/-- The stkCallback payload the sweepers rebuild from a poll result
(part_003 lines 357-368 and part_002 lines 727-738): the transaction's
own checkoutRequestId with the provider's status fields. -/
def payloadOf (tx : Transaction) (rc desc : String) (amt : Option Int)
    (receipt : Option String) (date : Option Int) : StkCallback :=
  { checkoutRequestID := tx.mpesaDetails.checkoutRequestId.getD ""
    resultCode := rc, resultDesc := desc, amount := amt
    mpesaReceiptNumber := receipt, transactionDate := date }

/-- Poll a transaction: queryTransactionStatus on its checkoutRequestId
(an absent id makes the call throw). -/
def pollTx (provider : Provider) (tx : Transaction) : QueryOutcome :=
  match tx.mpesaDetails.checkoutRequestId with
  | some cid => provider cid
  | none => QueryOutcome.netError

/-- One loop iteration of MpesaService.processPendingTransactions
(part_003 lines 352-377): ResultCode `0` goes through
handleSTKPushCallback (a throw there is caught and increments the retry
count); ResultCode `103` keeps the entry pending; any other ResultCode
marks it failed with no balance write; a poll error increments the retry
count. -/
def stepPending (now : Int) (provider : Provider) (db : DB)
    (tx : Transaction) : DB :=
  match pollTx provider tx with
  | QueryOutcome.ok rc desc amt receipt date =>
    if rc = "0" then
      let r := handleSTKPushCallback db (payloadOf tx rc desc amt receipt date) now
      if r.2 = CbOutcome.threw then saveTx r.1 (incrementRetryCount tx) else r.1
    else if rc = "103" then db
    else saveTx db (markAsFailed tx desc now)
  | QueryOutcome.netError => saveTx db (incrementRetryCount tx)

/-- Transaction.findPendingTransactions (Transaction.js statics): status
in {pending, processing} and createdAt within the last 24 hours. -/
def pendingList (db : DB) (now : Int) : List Transaction :=
  db.transactions.filter
    (fun t => (t.status = TxStatus.pending ∨ t.status = TxStatus.processing) ∧
      now - 86400000 ≤ t.createdAt)

/-- MpesaService.processPendingTransactions (part_003 lines 347-385):
poll every recent pending/processing transaction and apply stepPending
to each in order. -/
def processPendingTransactions (db : DB) (now : Int) (provider : Provider) : DB :=
  (pendingList db now).foldl (stepPending now provider) db

/-- The stuck-transaction query of CronService.processStuckTransactions
(part_002 lines 711-716): status in {pending, processing} and createdAt
more than one hour old. -/
def stuckList (db : DB) (now : Int) : List Transaction :=
  db.transactions.filter
    (fun t => (t.status = TxStatus.pending ∨ t.status = TxStatus.processing) ∧
      t.createdAt < now - 3600000)

/-- One loop iteration of CronService.processStuckTransactions (part_002
lines 718-759): ResultCode `0` goes through handleSTKPushCallback (a
throw there is caught and increments the retry count); ResultCode `103`
keeps the entry; any other ResultCode marks it failed and refunds the
amount when it is a withdrawal; a poll error increments the retry
count. -/
def stepStuck (now : Int) (provider : Provider) (db : DB)
    (tx : Transaction) : DB :=
  match pollTx provider tx with
  | QueryOutcome.ok rc desc amt receipt date =>
    if rc = "0" then
      let r := handleSTKPushCallback db (payloadOf tx rc desc amt receipt date) now
      if r.2 = CbOutcome.threw then saveTx r.1 (incrementRetryCount tx) else r.1
    else if rc = "103" then db
    else
      let db1 := saveTx db (markAsFailed tx ("Stuck transaction: " ++ desc) now)
      if tx.type = TxType.withdrawal then
        match findUser db1 tx.user with
        | none => db1
        | some u => saveUser db1 { u with balance := u.balance + tx.amount }
      else db1
  | QueryOutcome.netError => saveTx db (incrementRetryCount tx)

/-- CronService.processStuckTransactions (part_002 lines 706-768): poll
every stuck pending/processing transaction and apply stepStuck to each
in order. -/
def processStuckTransactions (db : DB) (now : Int) (provider : Provider) : DB :=
  (stuckList db now).foldl (stepStuck now provider) db

/-- CronService.cleanupOldTransactions (part_002 lines 680-703): a single
updateMany setting status to cancelled on every transaction whose status
is failed and whose createdAt is more than 7 days (604800000 ms) old. -/
def cleanupOldTransactions (db : DB) (now : Int) : DB :=
  { db with transactions :=
      db.transactions.map (fun t =>
        if t.status = TxStatus.failed ∧ t.createdAt < now - 604800000
        then { t with status := TxStatus.cancelled } else t) }

/-- The in-process state of CronService (part_002 lines 607-647): the
isRunning flag and the number of cron tasks registered by start(). -/
structure CronState where
  isRunning : Bool
  scheduledTaskCount : Nat
deriving DecidableEq

/-- CronService.start (part_002 lines 613-647): a no-op when isRunning is
already true; otherwise registers the three cron schedules and sets
isRunning. The flag is written nowhere else except stop(). -/
def cronStart (s : CronState) : CronState :=
  if s.isRunning then s
  else { isRunning := true, scheduledTaskCount := s.scheduledTaskCount + 3 }

/-- Scheduling events of the periodic sweeps: a timer tick fires a
scheduled callback (beginning a run), and a run completes. -/
inductive CronEvent
  | tick
  | complete
deriving DecidableEq

/-- Interleaving semantics of the scheduled callbacks as written in the
source (part_002 lines 622-643): the closures passed to cron.schedule
invoke the processors directly, consulting neither isRunning nor any
per-run flag, so a tick always begins a run — the in-flight count simply
increments. A completion decrements it. -/
def runStep (inFlight : Nat) : CronEvent → Nat
  | CronEvent.tick => inFlight + 1
  | CronEvent.complete => inFlight - 1

/-- In-flight run count after a schedule of events, starting idle. -/
def inFlightAfter (es : List CronEvent) : Nat :=
  es.foldl runStep 0

/-- Whether a schedule of events never begins a run while another run is
still in flight (the single-flight property). -/
def overlapFree (es : List CronEvent) : Bool :=
  (es.foldl
    (fun st e =>
      match e with
      | CronEvent.tick => (runStep st.1 e, st.2 && decide (st.1 = 0))
      | CronEvent.complete => (runStep st.1 e, st.2))
    ((0 : Nat), true)).2

/-- Balance of a user as stored in the database. -/
def userBalance (db : DB) (uid : Nat) : Option Int :=
  (findUser db uid).map User.balance

/-- Status of a transaction looked up by id. -/
def txStatusById (db : DB) (txid : Nat) : Option TxStatus :=
  (db.transactions.find? (fun t => t.id = txid)).map Transaction.status

/-- Retry count of a transaction looked up by id. -/
def txRetryById (db : DB) (txid : Nat) : Option Nat :=
  (db.transactions.find? (fun t => t.id = txid)).map Transaction.retryCount

/-- Empty mpesaDetails subdocument with a given checkoutRequestId. -/
def detailsWithCid (cid : String) : MpesaDetails :=
  { phoneNumber := none, merchantRequestId := none
    checkoutRequestId := some cid, resultCode := none, resultDesc := none
    amount := none, mpesaReceiptNumber := none, transactionDate := none }

/-- A transaction document fixture. -/
def mkTx (txid uid : Nat) (k : TxType) (amount : Int) (st : TxStatus)
    (cid : String) (createdAt : Int) (rc mr : Nat) : Transaction :=
  { id := txid, user := uid, type := k, amount := amount, status := st
    mpesaDetails := detailsWithCid cid
    failureReason := none, retryCount := rc, maxRetries := mr
    createdAt := createdAt, processedAt := none, failedAt := none }

/-- A user document fixture. -/
def mkUser (uid : Nat) (phone : String) (balance limit : Int) : User :=
  { id := uid, phoneNumber := some phone, balance := balance
    withdrawalLimit := limit }

/-- A success stkCallback fixture for a given checkoutRequestId and
amount. -/
def successCb (cid : String) (amt : Int) : StkCallback :=
  { checkoutRequestID := cid, resultCode := "0"
    resultDesc := "The service request is processed successfully."
    amount := some amt, mpesaReceiptNumber := some ("RCPT")
    transactionDate := some 1 }

/- Claim C1 fixture: a deposit of 500 for user 1 (balance 1000), in
processing, confirmed twice with the same checkoutRequestId. -/

def c1Db : DB :=
  { users := [mkUser 1 ("0700000001") 1000 200000]
    transactions := [mkTx 7 1 TxType.deposit 500 TxStatus.processing ("CR1") 0 0 3] }

def c1Once : DB := (handleSTKPushCallback c1Db (successCb ("CR1") 500) 5).1

def c1Twice : DB := (handleSTKPushCallback c1Once (successCb ("CR1") 500) 6).1

/- Claim C2 fixture: an already completed deposit, hit by a late timeout
callback. -/

def c2Db : DB :=
  { users := [mkUser 1 ("0700000002") 500 200000]
    transactions := [mkTx 7 1 TxType.deposit 200 TxStatus.completed ("CR2") 0 0 3] }

/- Claim C3 fixture: user 1 with balance 1000 withdraws 100; the gateway
accepts and a success confirmation follows. -/

def c3Db : DB :=
  { users := [mkUser 1 ("0700000003") 1000 200000], transactions := [] }

def c3AfterRequest : DB :=
  (withdrawRoute c3Db 1 100 (GatewayResult.accepted ("CW") ("M1")) 7 0).db

def c3AfterConfirm : DB :=
  (mpesaCallbackRoute c3AfterRequest (successCb ("CW") 100) 5).1

/- Claim C4 fixture: a pending withdrawal of 100 (balance already debited
to 900) whose poll reports a failure ResultCode, processed by the
pending-transactions sweep. -/

def c4Db : DB :=
  { users := [mkUser 1 ("0700000004") 900 200000]
    transactions := [mkTx 7 1 TxType.withdrawal 100 TxStatus.pending ("CP1") 0 0 3] }

def c4Provider : Provider :=
  fun c => if c = "CP1"
    then QueryOutcome.ok ("1") ("The balance is insufficient") none none none
    else QueryOutcome.netError

def c4After : DB := processPendingTransactions c4Db 1000 c4Provider

/- Claim C5 fixture: a stuck withdrawal with retryCount 2 and maxRetries
3 whose poll errors, processed by the stuck-transactions sweep. -/

def c5Tx : Transaction :=
  mkTx 7 1 TxType.withdrawal 100 TxStatus.pending ("CS1") 0 2 3

def c5Db : DB :=
  { users := [mkUser 1 ("0700000005") 500 200000], transactions := [c5Tx] }

def c5ProviderErr : Provider := fun _ => QueryOutcome.netError

def c5After : DB := processStuckTransactions c5Db 7200000 c5ProviderErr

/- Claim C6 fixtures: non-idempotence of the shared handler, and a
one-element stuck sweep compared against the webhook route. -/

def c6Db : DB :=
  { users := [mkUser 2 ("0700000006") 100 200000]
    transactions := [mkTx 8 2 TxType.deposit 50 TxStatus.processing ("CX") 0 0 3] }

def c6Once : DB := (handleSTKPushCallback c6Db (successCb ("CX") 50) 5).1

def c6Twice : DB := (handleSTKPushCallback c6Once (successCb ("CX") 50) 6).1

def c6wTx : Transaction :=
  mkTx 9 3 TxType.deposit 5 TxStatus.processing ("C6W") 0 0 3

def c6wDb : DB :=
  { users := [mkUser 3 ("0700000016") 10 200000], transactions := [c6wTx] }

def c6wProvider : Provider :=
  fun c => if c = "C6W"
    then QueryOutcome.ok ("0") ("done") (some 5) (some ("R")) (some 1)
    else QueryOutcome.netError

/- Claim C7 fixture: user 1 with balance 50 asks to withdraw 1000. -/

def c7User : User := mkUser 1 ("0700000007") 50 200000

def c7Db : DB := { users := [c7User], transactions := [] }

/- Claim C8 fixture: one old failed, one recent failed, one old pending
transaction, swept at day 10. -/

def c8OldTx : Transaction := mkTx 1 1 TxType.deposit 10 TxStatus.failed ("A1") 0 0 3

def c8SweptTx : Transaction := { c8OldTx with status := TxStatus.cancelled }

def c8Db : DB :=
  { users := [mkUser 1 ("0700000008") 300 200000]
    transactions :=
      [ c8OldTx
      , mkTx 2 1 TxType.deposit 10 TxStatus.failed ("A2") 700000000 0 3
      , mkTx 3 1 TxType.withdrawal 10 TxStatus.pending ("A3") 0 0 3 ] }

/- Claim C10 fixtures: a user with exactly two pending transactions (the
withdraw cap but not the deposit cap), and one with three (both caps). -/

def c10User : User := mkUser 1 ("0700000010") 10000 200000

def c10Db2 : DB :=
  { users := [c10User]
    transactions :=
      [ mkTx 1 1 TxType.deposit 10 TxStatus.pending ("B1") 0 0 3
      , mkTx 2 1 TxType.deposit 10 TxStatus.processing ("B2") 0 0 3 ] }

def c10Db3 : DB :=
  { users := [c10User]
    transactions :=
      [ mkTx 1 1 TxType.deposit 10 TxStatus.pending ("B1") 0 0 3
      , mkTx 2 1 TxType.deposit 10 TxStatus.processing ("B2") 0 0 3
      , mkTx 3 1 TxType.withdrawal 10 TxStatus.pending ("B3") 0 0 3 ] }

/-! Theorems settling the claims. -/

/-- saveTx rewrites the transactions collection only; users are
untouched. -/
theorem saveTx_users (db : DB) (t : Transaction) : (saveTx db t).users = db.users :=
  rfl

/-- When every poll errors, a stuck-transactions sweep only saves
incremented retry counters, so the users collection is unchanged. -/
theorem foldl_stepStuck_users_of_netError (now : Int) (p : Provider)
    (hp : ∀ c, p c = QueryOutcome.netError) :
    ∀ (l : List Transaction) (db : DB),
      (l.foldl (stepStuck now p) db).users = db.users := by
  intro l
  induction l with
  | nil => intro db; rfl
  | cons t ts ih =>
    intro db
    rw [List.foldl_cons, ih]
    show (stepStuck now p db t).users = db.users
    unfold stepStuck pollTx
    cases hc : t.mpesaDetails.checkoutRequestId with
    | none => rfl
    | some c =>
      dsimp only
      rw [hp c]
      rfl

/-- C1: the claim says a confirmation for an entry already in a terminal
state is a no-op. In the code, handleSTKPushCallback re-applies
markAsCompleted and the balance delta on every success callback for the
same checkoutRequestId: a deposit of 500 confirmed twice moves the
owner's balance from 1000 to 1500 and then to 2000, even though the entry
was already completed after the first confirmation. -/
theorem c1_duplicate_success_reapplies_delta :
    userBalance c1Db 1 = some 1000
    ∧ userBalance c1Once 1 = some 1500
    ∧ txStatusById c1Once 7 = some TxStatus.completed
    ∧ userBalance c1Twice 1 = some 2000 := by
  decide

/-- C2: the claim says completed and cancelled are absorbing. In the
code, the /mpesa/timeout route looks the transaction up by
CheckoutRequestID with no status filter and marks it failed, so an
already completed entry transitions completed → failed. -/
theorem c2_timeout_overwrites_completed :
    txStatusById c2Db 7 = some TxStatus.completed
    ∧ txStatusById (mpesaTimeoutRoute c2Db ("CR2") 9) 7 = some TxStatus.failed := by
  decide

/-- C3: the claim says a completed withdrawal decreases the balance by
exactly the amount. In the code, the withdraw route debits the amount at
creation and the success confirmation debits it a second time: a
withdrawal of 100 from a balance of 1000 leaves 900 after the request
and 800 after the confirmation. -/
theorem c3_completed_withdrawal_double_debit :
    userBalance c3Db 1 = some 1000
    ∧ userBalance c3AfterRequest 1 = some 900
    ∧ txStatusById c3AfterConfirm 7 = some TxStatus.completed
    ∧ userBalance c3AfterConfirm 1 = some 800 := by
  decide

/-- C4: the claim says every path into failed or cancelled restores a
withdrawal's reserved amount exactly once. In the code, the
pending-transactions sweep (MpesaService.processPendingTransactions)
marks a withdrawal failed on a failure ResultCode without any refund:
the owner's balance stays at 900 although the entry ends failed. -/
theorem c4_pending_sweep_fails_without_refund :
    userBalance c4Db 1 = some 900
    ∧ txStatusById c4After 7 = some TxStatus.failed
    ∧ userBalance c4After 1 = some 900 := by
  decide

/-- C5 counterexample: the claim says an entry whose retryCount reaches
maxRetries is forced to failed with its reservation released. On a stuck
withdrawal with retryCount 2 and maxRetries 3 whose poll errors, the
sweep leaves the entry cancelled — not failed — and the owner's balance
unchanged. -/
theorem c5_counterexample_retry_exhaustion_cancels :
    txStatusById c5After 7 = some TxStatus.cancelled
    ∧ ¬ txStatusById c5After 7 = some TxStatus.failed
    ∧ userBalance c5After 1 = userBalance c5Db 1
    ∧ txRetryById c5After 7 = some 3 := by
  decide

/-- C5 amended: on a poll error the entry's retryCount is incremented;
when the incremented count reaches maxRetries the entry is set to status
cancelled (not failed) and otherwise keeps its status; and a sweep in
which every poll errors never touches any user balance, so no
reservation is released. -/
theorem c5_amended_retry_exhaustion (t : Transaction) :
    (incrementRetryCount t).retryCount = t.retryCount + 1
    ∧ (t.maxRetries ≤ t.retryCount + 1 →
        (incrementRetryCount t).status = TxStatus.cancelled)
    ∧ (t.retryCount + 1 < t.maxRetries →
        (incrementRetryCount t).status = t.status)
    ∧ ∀ (db : DB) (now : Int) (p : Provider),
        (∀ c, p c = QueryOutcome.netError) →
        (processStuckTransactions db now p).users = db.users := by
  refine ⟨rfl, ?_, ?_, ?_⟩
  · intro h
    simp [incrementRetryCount, h]
  · intro h
    simp [incrementRetryCount, Nat.not_le_of_lt h]
  · intro db now p hp
    exact foldl_stepStuck_users_of_netError now p hp (stuckList db now) db

/-- C5 amended, witness: the amended statement evaluated on the concrete
stuck withdrawal with retryCount 2 and maxRetries 3. -/
theorem c5_amended_retry_exhaustion_witness :
    (incrementRetryCount c5Tx).retryCount = 3
    ∧ (incrementRetryCount c5Tx).status = TxStatus.cancelled
    ∧ (processStuckTransactions c5Db 7200000 c5ProviderErr).users = c5Db.users := by
  have h := c5_amended_retry_exhaustion c5Tx
  exact ⟨h.1, h.2.1 (by decide), h.2.2.2 c5Db 7200000 c5ProviderErr (fun c => rfl)⟩

/-- C6 counterexample: the claim calls the shared transition function
idempotent. Applying the same success confirmation twice through
handleSTKPushCallback yields a different balance than applying it once,
so the shared handler is not idempotent. -/
theorem c6_counterexample_handler_not_idempotent :
    userBalance c6Twice 2 ≠ userBalance c6Once 2
    ∧ userBalance c6Once 2 = some 150
    ∧ userBalance c6Twice 2 = some 200 := by
  decide

/-- C6 amended: a success confirmation discovered by the stuck-transaction
sweeper is applied by forwarding the provider status to the very
handleSTKPushCallback the webhook route uses, never a separate code
path: when the sweep selects exactly one stuck entry, its poll reports
ResultCode 0, and the handler does not throw, the sweep produces exactly
the database the webhook route produces on the payload built from the
same fields. The shared handler is, however, not idempotent. -/
theorem c6_amended_shared_transition_function
    (db : DB) (now : Int) (p : Provider) (tx : Transaction)
    (desc : String) (amt : Option Int) (receipt : Option String)
    (date : Option Int)
    (hstuck : stuckList db now = [tx])
    (hpoll : pollTx p tx = QueryOutcome.ok ("0") desc amt receipt date)
    (hnothrow :
      (handleSTKPushCallback db (payloadOf tx ("0") desc amt receipt date) now).2
        ≠ CbOutcome.threw) :
    processStuckTransactions db now p =
      (mpesaCallbackRoute db (payloadOf tx ("0") desc amt receipt date) now).1 := by
  unfold processStuckTransactions
  rw [hstuck]
  show stepStuck now p db tx = _
  unfold stepStuck
  rw [hpoll]
  dsimp only
  rw [if_pos rfl, if_neg hnothrow]
  rfl

/-- C6 amended, witness: the equivalence evaluated on a concrete database
with one stuck deposit whose poll reports success. -/
theorem c6_amended_witness :
    processStuckTransactions c6wDb 7200000 c6wProvider =
      (mpesaCallbackRoute c6wDb
        (payloadOf c6wTx ("0") ("done") (some 5) (some ("R")) (some 1)) 7200000).1 :=
  c6_amended_shared_transition_function c6wDb 7200000 c6wProvider c6wTx ("done")
    (some 5) (some ("R")) (some 1) (by decide) (by decide) (by decide)

/-- C7: a withdraw request for an amount exceeding the user's balance is
rejected — the route answers with success false — before the gateway
call and before any transaction document is created: the database is
returned unchanged. -/
theorem c7_insufficient_balance_rejected
    (db : DB) (uid : Nat) (amount : Int) (gw : GatewayResult) (txid : Nat)
    (now : Int) (u : User)
    (hu : findUser db uid = some u) (hb : u.balance < amount) :
    (withdrawRoute db uid amount gw txid now).success = false
    ∧ (withdrawRoute db uid amount gw txid now).gatewayCalled = false
    ∧ (withdrawRoute db uid amount gw txid now).db = db := by
  unfold withdrawRoute
  rw [hu]
  by_cases hv : validWithdrawalAmount amount
  · rw [if_pos hv]
    dsimp only
    cases hp : u.phoneNumber with
    | none => exact ⟨rfl, rfl, rfl⟩
    | some ph =>
      show (withdrawChecks db uid u ph amount gw txid now).success = false
        ∧ (withdrawChecks db uid u ph amount gw txid now).gatewayCalled = false
        ∧ (withdrawChecks db uid u ph amount gw txid now).db = db
      unfold withdrawChecks
      rw [if_pos hb]
      exact ⟨rfl, rfl, rfl⟩
  · rw [if_neg hv]
    exact ⟨rfl, rfl, rfl⟩

/-- C7 witness: user 1 with balance 50 asks to withdraw 1000 and is
rejected with no gateway call and an unchanged database. -/
theorem c7_insufficient_balance_witness :
    (withdrawRoute c7Db 1 1000 (GatewayResult.accepted ("Z1") ("Z2")) 9 0).success = false
    ∧ (withdrawRoute c7Db 1 1000 (GatewayResult.accepted ("Z1") ("Z2")) 9 0).gatewayCalled = false
    ∧ (withdrawRoute c7Db 1 1000 (GatewayResult.accepted ("Z1") ("Z2")) 9 0).db = c7Db :=
  c7_insufficient_balance_rejected c7Db 1 1000
    (GatewayResult.accepted ("Z1") ("Z2")) 9 0 c7User (by decide) (by decide)

/-- C8: the daily retention sweep leaves every user untouched, keeps the
transactions collection the same length, and rewrites each entry to the
same entry with status cancelled exactly when its status was failed and
it was created more than 7 days (604800000 ms) before now — every field
other than status is preserved. -/
theorem c8_retention_sweep_frame (db : DB) (now : Int) :
    (cleanupOldTransactions db now).users = db.users
    ∧ (cleanupOldTransactions db now).transactions.length = db.transactions.length
    ∧ ∀ (i : Nat) (t t' : Transaction), db.transactions[i]? = some t →
        (cleanupOldTransactions db now).transactions[i]? = some t' →
        (t'.status = if t.status = TxStatus.failed ∧ t.createdAt < now - 604800000
            then TxStatus.cancelled else t.status)
        ∧ t'.id = t.id ∧ t'.user = t.user ∧ t'.type = t.type ∧ t'.amount = t.amount
        ∧ t'.mpesaDetails = t.mpesaDetails ∧ t'.failureReason = t.failureReason
        ∧ t'.retryCount = t.retryCount ∧ t'.maxRetries = t.maxRetries
        ∧ t'.createdAt = t.createdAt ∧ t'.processedAt = t.processedAt
        ∧ t'.failedAt = t.failedAt := by
  refine ⟨rfl, ?_, ?_⟩
  · simp [cleanupOldTransactions]
  · intro i t t' ht ht'
    have hm : (cleanupOldTransactions db now).transactions[i]? =
        (db.transactions[i]?).map (fun s =>
          if s.status = TxStatus.failed ∧ s.createdAt < now - 604800000
          then { s with status := TxStatus.cancelled } else s) := by
      simp [cleanupOldTransactions]
    rw [hm, ht] at ht'
    simp only [Option.map_some', Option.some.injEq] at ht'
    subst ht'
    by_cases h : t.status = TxStatus.failed ∧ t.createdAt < now - 604800000
    · simp [h]
    · simp [h]

/-- C8 witness: sweeping the concrete database at day 10 preserves the
users and rewrites the 10-day-old failed entry to cancelled with its
amount intact. -/
theorem c8_retention_sweep_witness :
    (cleanupOldTransactions c8Db 864000000).users = c8Db.users
    ∧ c8SweptTx.status = TxStatus.cancelled
    ∧ c8SweptTx.amount = c8OldTx.amount := by
  have h := c8_retention_sweep_frame c8Db 864000000
  have h0 := h.2.2 0 c8OldTx c8SweptTx (by decide) (by decide)
  refine ⟨h.1, ?_, h0.2.2.2.2.1⟩
  rw [h0.1]
  decide

/-- C9 counterexample: the claim says a new run never starts while a
previous run is in flight. Under the source's scheduling — the callbacks
registered by CronService.start consult no flag — the schedule of two
consecutive ticks is possible and its second tick begins a run while one
run is already in flight. -/
theorem c9_counterexample_overlapping_ticks :
    overlapFree [CronEvent.tick, CronEvent.tick] = false
    ∧ inFlightAfter [CronEvent.tick] = 1 := by
  decide

/-- C9 amended: the isRunning flag guards only CronService.start — a
second start call is a no-op, so the cron tasks are registered once —
while individual runs consult no flag: every tick begins a run
unconditionally, and overlapping runs are not prevented. -/
theorem c9_amended_flag_guards_start_only :
    (∀ s : CronState, cronStart (cronStart s) = cronStart s)
    ∧ (∀ n : Nat, runStep n CronEvent.tick = n + 1)
    ∧ overlapFree [CronEvent.tick, CronEvent.tick] = false := by
  refine ⟨?_, fun n => rfl, by decide⟩
  intro s
  by_cases h : s.isRunning = true
  · simp [cronStart, h]
  · simp [cronStart, h]

/-- C10: a deposit request is rejected — success false, no gateway call,
database unchanged — whenever the user already has 3 or more pending or
processing transactions, a withdraw request already at 2 or more; and
the caps differ: on a concrete database with exactly 2 pending
transactions the deposit reaches the gateway while the withdrawal is
rejected. -/
theorem c10_pending_caps (db : DB) (uid : Nat) (amount : Int)
    (gw : GatewayResult) (txid : Nat) (now : Int) :
    (3 ≤ countPending db uid →
      (depositRoute db uid amount gw txid now).success = false
      ∧ (depositRoute db uid amount gw txid now).gatewayCalled = false
      ∧ (depositRoute db uid amount gw txid now).db = db)
    ∧ (2 ≤ countPending db uid →
      (withdrawRoute db uid amount gw txid now).success = false
      ∧ (withdrawRoute db uid amount gw txid now).gatewayCalled = false
      ∧ (withdrawRoute db uid amount gw txid now).db = db)
    ∧ (depositRoute c10Db2 1 500 (GatewayResult.accepted ("D1") ("D2")) 9 0).gatewayCalled = true
    ∧ (withdrawRoute c10Db2 1 500 (GatewayResult.accepted ("D1") ("D2")) 9 0).gatewayCalled = false
    ∧ countPending c10Db2 1 = 2 := by
  refine ⟨?_, ?_, by decide, by decide, by decide⟩
  · intro h
    unfold depositRoute
    by_cases hv : validDepositAmount amount
    · rw [if_pos hv]
      cases hfu : findUser db uid with
      | none => exact ⟨rfl, rfl, rfl⟩
      | some u =>
        dsimp only
        cases hp : u.phoneNumber with
        | none => exact ⟨rfl, rfl, rfl⟩
        | some ph =>
          show (depositChecks db uid u ph amount gw txid now).success = false
            ∧ (depositChecks db uid u ph amount gw txid now).gatewayCalled = false
            ∧ (depositChecks db uid u ph amount gw txid now).db = db
          unfold depositChecks
          rw [if_pos h]
          exact ⟨rfl, rfl, rfl⟩
    · rw [if_neg hv]
      exact ⟨rfl, rfl, rfl⟩
  · intro h
    unfold withdrawRoute
    by_cases hv : validWithdrawalAmount amount
    · rw [if_pos hv]
      cases hfu : findUser db uid with
      | none => exact ⟨rfl, rfl, rfl⟩
      | some u =>
        dsimp only
        cases hp : u.phoneNumber with
        | none => exact ⟨rfl, rfl, rfl⟩
        | some ph =>
          show (withdrawChecks db uid u ph amount gw txid now).success = false
            ∧ (withdrawChecks db uid u ph amount gw txid now).gatewayCalled = false
            ∧ (withdrawChecks db uid u ph amount gw txid now).db = db
          unfold withdrawChecks
          by_cases hbal : u.balance < amount
          · rw [if_pos hbal]
            exact ⟨rfl, rfl, rfl⟩
          · rw [if_neg hbal, if_pos h]
            exact ⟨rfl, rfl, rfl⟩
    · rw [if_neg hv]
      exact ⟨rfl, rfl, rfl⟩

/-- C10 witness: with three pending transactions both the deposit and the
withdraw request are rejected before any gateway call. -/
theorem c10_pending_caps_witness :
    (depositRoute c10Db3 1 500 (GatewayResult.accepted ("D1") ("D2")) 9 0).gatewayCalled = false
    ∧ (withdrawRoute c10Db3 1 500 (GatewayResult.accepted ("D1") ("D2")) 9 0).gatewayCalled = false := by
  have h := c10_pending_caps c10Db3 1 500 (GatewayResult.accepted ("D1") ("D2")) 9 0
  exact ⟨(h.1 (by decide)).2.1, (h.2.1 (by decide)).2.1⟩

end BoomBank
